import Mathlib

/-!
# Verification of evilwm's client management core (src/client.c)

A shallow embedding of the client lifecycle and geometry state manager of
the evilwm window manager.  C integers are modelled as `Int`, X11 window /
colormap / pixel handles as `Nat`, and every X protocol request issued by
the code is recorded in an explicit effect trace (`XCall`), so that the
ordering claims of the specification can be stated about the traces the
functions produce.

External values consumed by the code (display width and height, the screen
colours, the monitor list, the screen's current virtual desktop) are passed
as explicit parameters.
-/

namespace Evilwm

/-! ## X11 constants (from X.h / Xutil.h) -/

/-- X.h window gravity values. -/
def ForgetGravity : Int := 0
def NorthWestGravity : Int := 1
def NorthGravity : Int := 2
def NorthEastGravity : Int := 3
def WestGravity : Int := 4
def CenterGravity : Int := 5
def EastGravity : Int := 6
def SouthWestGravity : Int := 7
def SouthGravity : Int := 8
def SouthEastGravity : Int := 9
def StaticGravity : Int := 10

/-- Xutil.h size-hint flag bits. -/
def PMinSize : Nat := 16
def PMaxSize : Nat := 32
def PResizeInc : Nat := 64
def PBaseSize : Nat := 256
def PWinGravity : Nat := 512

/-- ICCCM WM_STATE values (Xutil.h). -/
def WithdrawnState : Int := 0
def NormalState : Int := 1
def IconicState : Int := 3

/-- X.h PointerRoot focus target. -/
def PointerRoot : Nat := 1

/-! ## Data model

`struct client` from client.h, reconstructed from its uses in client.c.
The owning screen's data (display size, colours, vdesk, monitors, root
window) is passed to each operation as parameters instead of being nested
in the record. -/

structure Client where
  window : Nat
  parent : Nat
  cmap : Nat
  x : Int
  y : Int
  width : Int
  height : Int
  border : Int
  old_border : Int
  win_gravity : Int
  win_gravity_hint : Int
  min_width : Int
  min_height : Int
  max_width : Int
  max_height : Int
  base_width : Int
  base_height : Int
  width_inc : Int
  height_inc : Int
  vdesk : Nat
  ignore_unmap : Nat
  remove : Bool
  is_dock : Bool
  deriving Repr, DecidableEq

/-- A raw XSizeHints record as read by XGetWMNormalHints. -/
structure XSizeHints where
  flags : Nat
  min_width : Int
  min_height : Int
  max_width : Int
  max_height : Int
  base_width : Int
  base_height : Int
  width_inc : Int
  height_inc : Int
  win_gravity : Int
  deriving Repr, DecidableEq

/-- An Xinerama/RandR monitor rectangle (struct monitor in screen.h). -/
structure Monitor where
  x : Int
  y : Int
  width : Int
  height : Int
  deriving Repr, DecidableEq

/-! ## Effect traces

Every X protocol request or EWMH property update made by the embedded
functions is recorded as one `XCall`. -/

inductive XCall where
  | xMapWindow (w : Nat)
  | xUnmapWindow (w : Nat)
  | xChangeProperty (w : Nat) (state : Int)
  | xSetWindowBorder (w : Nat) (pixel : Nat)
  | xInstallColormap (cmap : Nat)
  | xSetInputFocus (w : Nat)
  | xReparentWindow (w : Nat) (root : Nat) (x y : Int)
  | xSetWindowBorderWidth (w : Nat) (bw : Int)
  | xRemoveFromSaveSet (w : Nat)
  | xDestroyWindow (w : Nat)
  | xGrabServer
  | xUngrabServer
  | xSync
  | setIgnoreXError (b : Bool)
  | ewmhSetNetWmDesktop (w : Nat)
  | ewmhSetNetWmState (w : Nat)
  | ewmhWithdrawClient (w : Nat)
  | ewmhRemoveAllowedActions (w : Nat)
  | ewmhSetNetClientList
  | ewmhSetNetClientListStacking
  | selectClient (arg : Option Nat)
  deriving Repr, DecidableEq

/-! ## Size-Hint Normalizer (get_wm_normal_hints, client.c:45) -/

/-- `get_wm_normal_hints`: populate a client's constraint fields from the
raw hints and return the updated client together with the raw flag word. -/
def get_wm_normal_hints (size : XSizeHints) (c : Client) : Client × Nat :=
  let flags := size.flags
  let c :=
    if flags &&& PMinSize ≠ 0 then
      { c with min_width := size.min_width, min_height := size.min_height }
    else
      { c with min_width := 0, min_height := 0 }
  let c :=
    if flags &&& PMaxSize ≠ 0 then
      { c with max_width := size.max_width, max_height := size.max_height }
    else
      { c with max_width := 0, max_height := 0 }
  let c :=
    if flags &&& PBaseSize ≠ 0 then
      { c with base_width := size.base_width, base_height := size.base_height }
    else
      { c with base_width := c.min_width, base_height := c.min_height }
  let c := { c with width_inc := 1, height_inc := 1 }
  let c :=
    if flags &&& PResizeInc ≠ 0 then
      { c with width_inc := if size.width_inc ≠ 0 then size.width_inc else 1,
               height_inc := if size.height_inc ≠ 0 then size.height_inc else 1 }
    else c
  let c :=
    if flags &&& PMinSize = 0 then
      { c with min_width := c.base_width + c.width_inc,
               min_height := c.base_height + c.height_inc }
    else c
  let c :=
    if flags &&& PWinGravity ≠ 0 then
      { c with win_gravity_hint := size.win_gravity }
    else
      { c with win_gravity_hint := NorthWestGravity }
  ({ c with win_gravity := c.win_gravity_hint }, flags)

/-! ## Geometry/Gravity Engine (client_gravitate, client.c:224) -/

/-- The (dx, dy) offset chosen by the switch on `c->win_gravity` in
client_gravitate.  The `default:` label shares the north-west case, so any
gravity value outside the nine named ones gets the north-west offset. -/
def gravity_offset (g : Int) (bw : Int) : Int × Int :=
  if g = NorthGravity then (0, bw)
  else if g = NorthEastGravity then (-bw, bw)
  else if g = EastGravity then (-bw, 0)
  else if g = CenterGravity then (0, 0)
  else if g = WestGravity then (bw, 0)
  else if g = SouthWestGravity then (bw, -bw)
  else if g = SouthGravity then (0, -bw)
  else if g = SouthEastGravity then (-bw, -bw)
  else (bw, bw)

/-- `client_gravitate(c, bw)`: offset the stored position by the gravity
table entry, except along an axis on which the client is maximised
(position 0 and size equal to the display size `dw`/`dh` on that axis). -/
def client_gravitate (dw dh : Int) (c : Client) (bw : Int) : Client :=
  let dx := (gravity_offset c.win_gravity bw).1
  let dy := (gravity_offset c.win_gravity bw).2
  let c := if c.x ≠ 0 ∨ c.width ≠ dw then { c with x := c.x + dx } else c
  if c.y ≠ 0 ∨ c.height ≠ dh then { c with y := c.y + dy } else c

/-! ## Monitor Assignment (client_monitor, client.c:133) -/

/-- The containment test for one monitor from the loop body of
client_monitor: `midx >= m->x && midx < m->x + m->width && midy >= m->y &&
midy < m->y + m->height`. -/
def monitor_contains (midx midy : Int) (m : Monitor) : Bool :=
  midx ≥ m.x && midx < m.x + m.width && midy ≥ m.y && midy < m.y + m.height

/-- The scan loop of client_monitor: once `was_inside` is set the loop never
replaces `best`, so the result is the first monitor containing the point. -/
def monitor_scan (midx midy : Int) : List Monitor → Option Monitor
  | [] => none
  | m :: rest =>
      if monitor_contains midx midy m then some m
      else monitor_scan midx midy rest

/-- `client_monitor(c)`: the first monitor of the screen's list containing
the client's centre point, else `monitors[0]`.  The screen's monitor array
is passed as the list `mons`; the C code indexes `monitors[0]`
unconditionally, so the fallback takes the head of the list. -/
def client_monitor (mons : List Monitor) (c : Client) : Monitor :=
  let midx := c.x + c.width / 2
  let midy := c.y + c.height / 2
  match monitor_scan midx midy mons with
  | some best => best
  | none => mons.headD ⟨0, 0, 0, 0⟩

/-! ## Visibility Engine (client_hide / client_show / set_wm_state) -/

/-- `set_wm_state(c, state)`: publish the ICCCM WM_STATE property on the
underlying window. -/
def set_wm_state (c : Client) (state : Int) : XCall :=
  .xChangeProperty c.window state

/-- `client_hide(c)`: bump the ignore-unmap counter, unmap the frame and
publish IconicState. -/
def client_hide (c : Client) : Client × List XCall :=
  ({ c with ignore_unmap := c.ignore_unmap + 1 },
   [.xUnmapWindow c.parent, set_wm_state c IconicState])

/-- `client_show(c)`: map the frame and publish NormalState. -/
def client_show (c : Client) : Client × List XCall :=
  (c, [.xMapWindow c.parent, set_wm_state c NormalState])

/-! ## Virtual desktops (client_to_vdesk, client.c:300)

The macros `VDESK_FIXED`, `valid_vdesk` and `is_fixed` live in evilwm.h,
which is not among the available sources. -/

/-- Modelled from the spec: the sentinel "fixed" pseudo-desktop value
meaning "visible on all desktops" (`VDESK_FIXED` in evilwm.h, one value
outside the range of real desktop ids; UINT_MAX in the C source's 32-bit
unsigned representation). -/
def VDESK_FIXED : Nat := 4294967295

/-- Modelled from the spec: a desktop id is valid when it is one of the
screen's real desktops (below the configured desktop count) or the fixed
sentinel (`valid_vdesk` in evilwm.h). -/
def valid_vdesk (numVdesks : Nat) (v : Nat) : Bool :=
  v < numVdesks || v = VDESK_FIXED

/-- Modelled from the spec: a client is fixed when its desktop field holds
the fixed sentinel (`is_fixed` in evilwm.h). -/
def is_fixed (c : Client) : Bool :=
  c.vdesk = VDESK_FIXED

/-- `client_to_vdesk(c, vdesk)`: move a client to a desktop, hiding it if
it is no longer visible.  `scrVdesk` is the screen's current desktop and
`cur` the window id of the globally selected client (the `select_client
(current)` call at the end is recorded in the trace with its argument). -/
def client_to_vdesk (numVdesks scrVdesk : Nat) (cur : Option Nat)
    (c : Client) (vdesk : Nat) : Client × List XCall :=
  if valid_vdesk numVdesks vdesk then
    let c := { c with vdesk := vdesk }
    let (c, tr) :=
      if c.vdesk = scrVdesk ∨ c.vdesk = VDESK_FIXED then client_show c
      else client_hide c
    (c, tr ++ [.ewmhSetNetWmDesktop c.window, .selectClient cur])
  else
    (c, [])

/-! ## Selection/Focus Manager (select_client, client.c:273)

The world carries the `current` global, the border-colour pixel currently
set on each frame window, the published per-window focused flag and the
accumulated call trace. -/

structure ScreenColors where
  bg : Nat
  fg : Nat
  fc : Nat
  deriving Repr, DecidableEq

structure SelWorld where
  current : Option Client
  borderColor : Nat → Nat
  focused : Nat → Bool
  calls : List XCall

/-- Pointwise update of a finite assignment. -/
def updFn (f : Nat → α) (k : Nat) (v : α) : Nat → α :=
  fun i => if i = k then v else f i

/-- Modelled from the spec: `ewmh_set_net_wm_state` (ewmh.c, not among the
available sources) republishes the client's externally-visible state
flags; the focused flag is set exactly when the client is the current
Selection. -/
def ewmh_set_net_wm_state (w : SelWorld) (c : Client) : SelWorld :=
  { w with
    focused := updFn w.focused c.window
      (match w.current with
       | some cur => cur.window == c.window
       | none => false),
    calls := w.calls ++ [.ewmhSetNetWmState c.window] }

/-- `select_client(c)`: uncolour the previous selection's frame, colour and
focus the new one, update the `current` global, then republish the state
flags of the old and then the new selection. -/
def select_client (scr : ScreenColors) (w : SelWorld) (c : Option Client) :
    SelWorld :=
  let old_current := w.current
  let w :=
    match w.current with
    | some cur =>
        { w with borderColor := updFn w.borderColor cur.parent scr.bg,
                 calls := w.calls ++ [XCall.xSetWindowBorder cur.parent scr.bg] }
    | none => w
  let w :=
    match c with
    | some cl =>
        let bpixel := if is_fixed cl then scr.fc else scr.fg
        { w with borderColor := updFn w.borderColor cl.parent bpixel,
                 calls := w.calls ++
                   [XCall.xSetWindowBorder cl.parent bpixel,
                    XCall.xInstallColormap cl.cmap,
                    XCall.xSetInputFocus cl.window] }
    | none => w
  let w := { w with current := c }
  let w :=
    match old_current with
    | some oldc => ewmh_set_net_wm_state w oldc
    | none => w
  match c with
  | some cl => ewmh_set_net_wm_state w cl
  | none => w

/-! ## Removal Transaction (remove_client, client.c:316) -/

/-- The global client registry touched by remove_client: the three ordered
lists (window ids), the selected client's window id, and the error
suppression flag. -/
structure WMState where
  clients_tab_order : List Nat
  clients_mapping_order : List Nat
  clients_stacking_order : List Nat
  current : Option Nat
  ignore_xerror : Bool
  deriving Repr, DecidableEq

/-- Modelled from the spec: `list_delete` (list.c, not among the available
sources) unlinks one record from a registry list; since a live client
appears at most once per list, erasing the first occurrence models it. -/
def list_delete (l : List Nat) (w : Nat) : List Nat :=
  l.erase w

/-- Step 3 of the Removal Transaction (client.c:350-353): undo the
manage-time gravity offset for the current border, apply the offset for
the original border, then subtract the original border from x and y. -/
def remove_client_geometry (dw dh : Int) (c : Client) : Client :=
  let c := client_gravitate dw dh c (-c.border)
  let c := client_gravitate dw dh c c.old_border
  { c with x := c.x - c.old_border, y := c.y - c.old_border }

/-- `remove_client(c)`: the full teardown sequence, returning the new
registry state and the trace of protocol requests issued, in order. -/
def remove_client (dw dh : Int) (root : Nat) (st : WMState) (c : Client) :
    WMState × List XCall :=
  let tr1 : List XCall := [.xGrabServer, .setIgnoreXError true]
  let tr2 : List XCall :=
    if c.remove then
      (if st.current = some c.window then [.xSetInputFocus PointerRoot] else [])
        ++ [set_wm_state c WithdrawnState, .ewmhWithdrawClient c.window]
    else
      [.ewmhRemoveAllowedActions c.window]
  let c := remove_client_geometry dw dh c
  let tr3 : List XCall :=
    [.xReparentWindow c.window root c.x c.y,
     .xSetWindowBorderWidth c.window c.old_border,
     .xRemoveFromSaveSet c.window]
      ++ (if c.parent ≠ 0 then [.xDestroyWindow c.parent] else [])
  let st :=
    { st with
      clients_tab_order := list_delete st.clients_tab_order c.window,
      clients_mapping_order := list_delete st.clients_mapping_order c.window,
      clients_stacking_order := list_delete st.clients_stacking_order c.window }
  let tr4 : List XCall :=
    if c.remove then [.ewmhSetNetClientList, .ewmhSetNetClientListStacking]
    else []
  let str5 :=
    if st.current = some c.window then
      ({ st with current := none }, [XCall.ewmhSetNetWmState c.window])
    else (st, ([] : List XCall))
  ({ str5.1 with ignore_xerror := false },
   tr1 ++ tr2 ++ tr3 ++ tr4 ++ str5.2 ++ [.xUngrabServer, .xSync, .setIgnoreXError false])

/-! ## Helper lemmas about the gravity engine -/

/-- The nine-entry offset table exactly as the specification words it:
north-west→(+d,+d), north→(0,+d), north-east→(−d,+d), west→(+d,0),
center→(0,0), east→(−d,0), south-west→(+d,−d), south→(0,−d),
south-east→(−d,−d); unknown gravity behaves as north-west. -/
def spec_gravity_table (g : Int) (d : Int) : Int × Int :=
  if g = NorthWestGravity then (d, d)
  else if g = NorthGravity then (0, d)
  else if g = NorthEastGravity then (-d, d)
  else if g = WestGravity then (d, 0)
  else if g = CenterGravity then (0, 0)
  else if g = EastGravity then (-d, 0)
  else if g = SouthWestGravity then (d, -d)
  else if g = SouthGravity then (0, -d)
  else if g = SouthEastGravity then (-d, -d)
  else (d, d)

theorem gravity_offset_eq_spec_table (g d : Int) :
    gravity_offset g d = spec_gravity_table g d := by
  unfold gravity_offset spec_gravity_table
  unfold NorthWestGravity NorthGravity NorthEastGravity WestGravity
    CenterGravity EastGravity SouthWestGravity SouthGravity SouthEastGravity
  split_ifs <;> first | rfl | omega

theorem gravity_offset_neg (g b : Int) :
    gravity_offset g (-b) =
      (-(gravity_offset g b).1, -(gravity_offset g b).2) := by
  unfold gravity_offset
  split_ifs <;> simp

theorem client_gravitate_x (dw dh : Int) (c : Client) (bw : Int) :
    (client_gravitate dw dh c bw).x =
      if c.x ≠ 0 ∨ c.width ≠ dw then
        c.x + (gravity_offset c.win_gravity bw).1
      else c.x := by
  unfold client_gravitate
  dsimp only
  split_ifs <;> rfl

theorem client_gravitate_y (dw dh : Int) (c : Client) (bw : Int) :
    (client_gravitate dw dh c bw).y =
      if c.y ≠ 0 ∨ c.height ≠ dh then
        c.y + (gravity_offset c.win_gravity bw).2
      else c.y := by
  unfold client_gravitate
  dsimp only
  split_ifs <;> rfl

/-- client_gravitate only ever writes x and y. -/
theorem client_gravitate_fields (dw dh : Int) (c : Client) (bw : Int) :
    (client_gravitate dw dh c bw).width = c.width ∧
    (client_gravitate dw dh c bw).height = c.height ∧
    (client_gravitate dw dh c bw).window = c.window ∧
    (client_gravitate dw dh c bw).parent = c.parent ∧
    (client_gravitate dw dh c bw).border = c.border ∧
    (client_gravitate dw dh c bw).old_border = c.old_border ∧
    (client_gravitate dw dh c bw).win_gravity = c.win_gravity := by
  unfold client_gravitate
  dsimp only
  split_ifs <;> exact ⟨rfl, rfl, rfl, rfl, rfl, rfl, rfl⟩

/-! ## Claim theorems -/

/-- C2: `client_gravitate(c, d)` adds to (x, y) the offset given by the
nine-entry gravity table keyed on the client's effective gravity (with any
unknown gravity behaving as north-west), except that the x component is
not applied when the client's x is 0 and its width equals the display
width, and independently the y component is not applied when its y is 0
and its height equals the display height.  Width and height are
untouched. -/
theorem client_gravitate_offset_table (dw dh : Int) (c : Client) (d : Int) :
    (client_gravitate dw dh c d).x =
      (if c.x = 0 ∧ c.width = dw then c.x
       else c.x + (spec_gravity_table c.win_gravity d).1) ∧
    (client_gravitate dw dh c d).y =
      (if c.y = 0 ∧ c.height = dh then c.y
       else c.y + (spec_gravity_table c.win_gravity d).2) ∧
    (client_gravitate dw dh c d).width = c.width ∧
    (client_gravitate dw dh c d).height = c.height := by
  refine ⟨?_, ?_, (client_gravitate_fields dw dh c d).1,
    (client_gravitate_fields dw dh c d).2.1⟩
  · rw [client_gravitate_x, gravity_offset_eq_spec_table]
    by_cases hx : c.x = 0 ∧ c.width = dw
    · rw [if_neg (by tauto), if_pos hx]
    · rw [if_pos (by tauto), if_neg hx]
  · rw [client_gravitate_y, gravity_offset_eq_spec_table]
    by_cases hy : c.y = 0 ∧ c.height = dh
    · rw [if_neg (by tauto), if_pos hy]
    · rw [if_pos (by tauto), if_neg hy]

/-- C3: when the maximized-axis suppression rule does not fire on either
axis on either call, `gravitate(c, b)` followed by `gravitate(c, −b)`
restores the original x and y exactly. -/
theorem client_gravitate_inverse (dw dh : Int) (c : Client) (b : Int)
    (hx1 : ¬(c.x = 0 ∧ c.width = dw))
    (hx2 : ¬(c.x + (gravity_offset c.win_gravity b).1 = 0 ∧ c.width = dw))
    (hy1 : ¬(c.y = 0 ∧ c.height = dh))
    (hy2 : ¬(c.y + (gravity_offset c.win_gravity b).2 = 0 ∧ c.height = dh)) :
    (client_gravitate dw dh (client_gravitate dw dh c b) (-b)).x = c.x ∧
    (client_gravitate dw dh (client_gravitate dw dh c b) (-b)).y = c.y := by
  have hw := client_gravitate_fields dw dh c b
  have hx : (client_gravitate dw dh c b).x =
      c.x + (gravity_offset c.win_gravity b).1 := by
    rw [client_gravitate_x, if_pos (by tauto)]
  have hy : (client_gravitate dw dh c b).y =
      c.y + (gravity_offset c.win_gravity b).2 := by
    rw [client_gravitate_y, if_pos (by tauto)]
  constructor
  · rw [client_gravitate_x, gravity_offset_neg]
    rw [hw.2.2.2.2.2.2, hx, hw.1]
    rw [if_pos (by tauto)]
    ring
  · rw [client_gravitate_y, gravity_offset_neg]
    rw [hw.2.2.2.2.2.2, hy, hw.2.1]
    rw [if_pos (by tauto)]
    ring

/-- Witness for C3 at a concrete south-east-gravity client. -/
theorem client_gravitate_inverse_witness :
    (client_gravitate 1024 768
      (client_gravitate 1024 768
        { window := 21, parent := 22, cmap := 3, x := 10, y := 10,
          width := 50, height := 50, border := 2, old_border := 1,
          win_gravity := SouthEastGravity,
          win_gravity_hint := SouthEastGravity,
          min_width := 0, min_height := 0, max_width := 0, max_height := 0,
          base_width := 0, base_height := 0, width_inc := 1, height_inc := 1,
          vdesk := 0, ignore_unmap := 0, remove := true, is_dock := false } 3)
      (-3)).x = 10 ∧
    (client_gravitate 1024 768
      (client_gravitate 1024 768
        { window := 21, parent := 22, cmap := 3, x := 10, y := 10,
          width := 50, height := 50, border := 2, old_border := 1,
          win_gravity := SouthEastGravity,
          win_gravity_hint := SouthEastGravity,
          min_width := 0, min_height := 0, max_width := 0, max_height := 0,
          base_width := 0, base_height := 0, width_inc := 1, height_inc := 1,
          vdesk := 0, ignore_unmap := 0, remove := true, is_dock := false } 3)
      (-3)).y = 10 :=
  client_gravitate_inverse 1024 768 _ 3
    (by decide) (by decide) (by decide) (by decide)

/-- C4: when the raw hints supply no explicit minimum size, the normalizer
leaves min = base + one increment; with no minimum, maximum, base or
increment hints at all, the client ends with increments (1,1), base (0,0),
min (1,1) and max (0,0).  (`get_wm_normal_hints` is a total function of
the hints record, so the call cannot fail.) -/
theorem get_wm_normal_hints_min_defaults (size : XSizeHints) (c : Client) :
    (size.flags &&& PMinSize = 0 →
      (get_wm_normal_hints size c).1.min_width =
          (get_wm_normal_hints size c).1.base_width +
            (get_wm_normal_hints size c).1.width_inc ∧
      (get_wm_normal_hints size c).1.min_height =
          (get_wm_normal_hints size c).1.base_height +
            (get_wm_normal_hints size c).1.height_inc) ∧
    (size.flags &&& PMinSize = 0 → size.flags &&& PMaxSize = 0 →
     size.flags &&& PBaseSize = 0 → size.flags &&& PResizeInc = 0 →
      (get_wm_normal_hints size c).1.width_inc = 1 ∧
      (get_wm_normal_hints size c).1.height_inc = 1 ∧
      (get_wm_normal_hints size c).1.base_width = 0 ∧
      (get_wm_normal_hints size c).1.base_height = 0 ∧
      (get_wm_normal_hints size c).1.min_width = 1 ∧
      (get_wm_normal_hints size c).1.min_height = 1 ∧
      (get_wm_normal_hints size c).1.max_width = 0 ∧
      (get_wm_normal_hints size c).1.max_height = 0) := by
  constructor
  · intro hmin
    by_cases h2 : size.flags &&& PMaxSize ≠ 0 <;>
      by_cases h3 : size.flags &&& PBaseSize ≠ 0 <;>
        by_cases h4 : size.flags &&& PResizeInc ≠ 0 <;>
          by_cases h5 : size.flags &&& PWinGravity ≠ 0 <;>
            simp [get_wm_normal_hints, hmin, h2, h3, h4, h5]
  · intro hmin hmax hbase hinc
    by_cases h5 : size.flags &&& PWinGravity ≠ 0 <;>
      simp [get_wm_normal_hints, hmin, hmax, hbase, hinc, h5]

/-- Witness for C4: a hints record with no flags set at all. -/
theorem get_wm_normal_hints_min_defaults_witness :
    ((get_wm_normal_hints
        { flags := 0, min_width := 77, min_height := 78, max_width := 79,
          max_height := 80, base_width := 81, base_height := 82,
          width_inc := 83, height_inc := 84, win_gravity := 9 }
        { window := 21, parent := 22, cmap := 3, x := 10, y := 10,
          width := 50, height := 50, border := 2, old_border := 1,
          win_gravity := 1, win_gravity_hint := 1,
          min_width := 5, min_height := 5, max_width := 5, max_height := 5,
          base_width := 5, base_height := 5, width_inc := 5, height_inc := 5,
          vdesk := 0, ignore_unmap := 0, remove := true,
          is_dock := false }).1.min_width = 1 ∧
     (get_wm_normal_hints
        { flags := 0, min_width := 77, min_height := 78, max_width := 79,
          max_height := 80, base_width := 81, base_height := 82,
          width_inc := 83, height_inc := 84, win_gravity := 9 }
        { window := 21, parent := 22, cmap := 3, x := 10, y := 10,
          width := 50, height := 50, border := 2, old_border := 1,
          win_gravity := 1, win_gravity_hint := 1,
          min_width := 5, min_height := 5, max_width := 5, max_height := 5,
          base_width := 5, base_height := 5, width_inc := 5, height_inc := 5,
          vdesk := 0, ignore_unmap := 0, remove := true,
          is_dock := false }).1.max_width = 0) :=
  let h := (get_wm_normal_hints_min_defaults
    { flags := 0, min_width := 77, min_height := 78, max_width := 79,
      max_height := 80, base_width := 81, base_height := 82,
      width_inc := 83, height_inc := 84, win_gravity := 9 }
    { window := 21, parent := 22, cmap := 3, x := 10, y := 10,
      width := 50, height := 50, border := 2, old_border := 1,
      win_gravity := 1, win_gravity_hint := 1,
      min_width := 5, min_height := 5, max_width := 5, max_height := 5,
      base_width := 5, base_height := 5, width_inc := 5, height_inc := 5,
      vdesk := 0, ignore_unmap := 0, remove := true, is_dock := false }).2
    (by decide) (by decide) (by decide) (by decide)
  ⟨h.2.2.2.2.1, h.2.2.2.2.2.2.1⟩

/-- C10: explicitly supplied minimum and maximum sizes are copied verbatim
and never reconciled against each other: a hint record with max < min on
an axis leaves the client with min greater than max on that axis. -/
theorem get_wm_normal_hints_no_reconcile (size : XSizeHints) (c : Client)
    (hmin : size.flags &&& PMinSize ≠ 0) (hmax : size.flags &&& PMaxSize ≠ 0) :
    (get_wm_normal_hints size c).1.min_width = size.min_width ∧
    (get_wm_normal_hints size c).1.min_height = size.min_height ∧
    (get_wm_normal_hints size c).1.max_width = size.max_width ∧
    (get_wm_normal_hints size c).1.max_height = size.max_height ∧
    (size.max_width < size.min_width →
      (get_wm_normal_hints size c).1.max_width <
        (get_wm_normal_hints size c).1.min_width) ∧
    (size.max_height < size.min_height →
      (get_wm_normal_hints size c).1.max_height <
        (get_wm_normal_hints size c).1.min_height) := by
  have key : (get_wm_normal_hints size c).1.min_width = size.min_width ∧
      (get_wm_normal_hints size c).1.min_height = size.min_height ∧
      (get_wm_normal_hints size c).1.max_width = size.max_width ∧
      (get_wm_normal_hints size c).1.max_height = size.max_height := by
    by_cases h3 : size.flags &&& PBaseSize ≠ 0 <;>
      by_cases h4 : size.flags &&& PResizeInc ≠ 0 <;>
        by_cases h5 : size.flags &&& PWinGravity ≠ 0 <;>
          simp [get_wm_normal_hints, hmin, hmax, h3, h4, h5]
  refine ⟨key.1, key.2.1, key.2.2.1, key.2.2.2, ?_, ?_⟩
  · intro hlt
    rw [key.1, key.2.2.1]
    exact hlt
  · intro hlt
    rw [key.2.1, key.2.2.2]
    exact hlt

/-- Witness for C10: explicit minimum 100 with explicit maximum 50. -/
theorem get_wm_normal_hints_no_reconcile_witness :
    ((get_wm_normal_hints
        { flags := 48, min_width := 100, min_height := 100, max_width := 50,
          max_height := 50, base_width := 0, base_height := 0,
          width_inc := 0, height_inc := 0, win_gravity := 1 }
        { window := 21, parent := 22, cmap := 3, x := 10, y := 10,
          width := 50, height := 50, border := 2, old_border := 1,
          win_gravity := 1, win_gravity_hint := 1,
          min_width := 5, min_height := 5, max_width := 5, max_height := 5,
          base_width := 5, base_height := 5, width_inc := 5, height_inc := 5,
          vdesk := 0, ignore_unmap := 0, remove := true,
          is_dock := false }).1.max_width <
      (get_wm_normal_hints
        { flags := 48, min_width := 100, min_height := 100, max_width := 50,
          max_height := 50, base_width := 0, base_height := 0,
          width_inc := 0, height_inc := 0, win_gravity := 1 }
        { window := 21, parent := 22, cmap := 3, x := 10, y := 10,
          width := 50, height := 50, border := 2, old_border := 1,
          win_gravity := 1, win_gravity_hint := 1,
          min_width := 5, min_height := 5, max_width := 5, max_height := 5,
          base_width := 5, base_height := 5, width_inc := 5, height_inc := 5,
          vdesk := 0, ignore_unmap := 0, remove := true,
          is_dock := false }).1.min_width) :=
  ((get_wm_normal_hints_no_reconcile
    { flags := 48, min_width := 100, min_height := 100, max_width := 50,
      max_height := 50, base_width := 0, base_height := 0,
      width_inc := 0, height_inc := 0, win_gravity := 1 }
    { window := 21, parent := 22, cmap := 3, x := 10, y := 10,
      width := 50, height := 50, border := 2, old_border := 1,
      win_gravity := 1, win_gravity_hint := 1,
      min_width := 5, min_height := 5, max_width := 5, max_height := 5,
      base_width := 5, base_height := 5, width_inc := 5, height_inc := 5,
      vdesk := 0, ignore_unmap := 0, remove := true, is_dock := false })
    (by decide) (by decide)).2.2.2.2.1 (by decide)

/-! ## Monitor scan lemmas -/

theorem monitor_scan_first (midx midy : Int) :
    ∀ (l : List Monitor) (i : Fin l.length),
      monitor_contains midx midy (l.get i) = true →
      (∀ j : Fin l.length, (j : Nat) < (i : Nat) →
        monitor_contains midx midy (l.get j) = false) →
      monitor_scan midx midy l = some (l.get i)
  | m :: rest, ⟨0, _⟩, hc, _ => by
      simp only [List.get] at hc
      simp [monitor_scan, hc]
  | m :: rest, ⟨i + 1, h⟩, hc, hfst => by
      have h0 : monitor_contains midx midy m = false :=
        hfst ⟨0, Nat.succ_pos _⟩ (Nat.succ_pos i)
      have hrec := monitor_scan_first midx midy rest
        ⟨i, Nat.lt_of_succ_lt_succ h⟩ hc
        (fun j hj => hfst ⟨(j : Nat) + 1, Nat.succ_lt_succ j.isLt⟩
          (Nat.succ_lt_succ hj))
      simp [monitor_scan, h0, hrec]

theorem monitor_scan_none (midx midy : Int) :
    ∀ l : List Monitor,
      (∀ m ∈ l, monitor_contains midx midy m = false) →
      monitor_scan midx midy l = none
  | [], _ => rfl
  | m :: rest, hall => by
      have h0 : monitor_contains midx midy m = false := hall m (by simp)
      have hrec := monitor_scan_none midx midy rest
        (fun m' hm' => hall m' (by simp [hm']))
      simp [monitor_scan, h0, hrec]

/-- C6: `client_monitor` returns the first monitor of the screen's ordered
list whose rectangle contains the client's centre point
(x + width/2, y + height/2); when no monitor contains the centre point it
returns the monitor at index 0.  It is a pure query of the client and the
list. -/
theorem client_monitor_first_match (mons : List Monitor) (c : Client)
    (hne : mons ≠ []) :
    (∀ i : Fin mons.length,
        monitor_contains (c.x + c.width / 2) (c.y + c.height / 2)
          (mons.get i) = true →
        (∀ j : Fin mons.length, (j : Nat) < (i : Nat) →
          monitor_contains (c.x + c.width / 2) (c.y + c.height / 2)
            (mons.get j) = false) →
        client_monitor mons c = mons.get i) ∧
    ((∀ m ∈ mons,
        monitor_contains (c.x + c.width / 2) (c.y + c.height / 2) m = false) →
      client_monitor mons c = mons.head hne) := by
  constructor
  · intro i hc hfst
    simp only [client_monitor]
    rw [monitor_scan_first (c.x + c.width / 2) (c.y + c.height / 2) mons i hc hfst]
  · intro hall
    simp only [client_monitor]
    rw [monitor_scan_none (c.x + c.width / 2) (c.y + c.height / 2) mons hall]
    cases mons with
    | nil => exact absurd rfl hne
    | cons m rest => rfl

/-- Witness for C6: the spec's three-monitor fixture — monitors at
x = 0, 100, 200, each 100 wide; a client centred at x = 150 lands on the
monitor at x = 100, and a client centred at x = 500 falls back to index 0. -/
theorem client_monitor_first_match_witness :
    client_monitor
      [⟨0, 0, 100, 100⟩, ⟨100, 0, 100, 100⟩, ⟨200, 0, 100, 100⟩]
      { window := 21, parent := 22, cmap := 3, x := 125, y := 0,
        width := 50, height := 50, border := 2, old_border := 1,
        win_gravity := 1, win_gravity_hint := 1,
        min_width := 0, min_height := 0, max_width := 0, max_height := 0,
        base_width := 0, base_height := 0, width_inc := 1, height_inc := 1,
        vdesk := 0, ignore_unmap := 0, remove := true, is_dock := false } =
      ⟨100, 0, 100, 100⟩ ∧
    client_monitor
      [⟨0, 0, 100, 100⟩, ⟨100, 0, 100, 100⟩, ⟨200, 0, 100, 100⟩]
      { window := 21, parent := 22, cmap := 3, x := 475, y := 0,
        width := 50, height := 50, border := 2, old_border := 1,
        win_gravity := 1, win_gravity_hint := 1,
        min_width := 0, min_height := 0, max_width := 0, max_height := 0,
        base_width := 0, base_height := 0, width_inc := 1, height_inc := 1,
        vdesk := 0, ignore_unmap := 0, remove := true, is_dock := false } =
      ⟨0, 0, 100, 100⟩ := by
  constructor
  · exact (client_monitor_first_match
      [⟨0, 0, 100, 100⟩, ⟨100, 0, 100, 100⟩, ⟨200, 0, 100, 100⟩]
      { window := 21, parent := 22, cmap := 3, x := 125, y := 0,
        width := 50, height := 50, border := 2, old_border := 1,
        win_gravity := 1, win_gravity_hint := 1,
        min_width := 0, min_height := 0, max_width := 0, max_height := 0,
        base_width := 0, base_height := 0, width_inc := 1, height_inc := 1,
        vdesk := 0, ignore_unmap := 0, remove := true, is_dock := false }
      (by decide)).1 ⟨1, by decide⟩ (by decide) (by decide)
  · exact (client_monitor_first_match
      [⟨0, 0, 100, 100⟩, ⟨100, 0, 100, 100⟩, ⟨200, 0, 100, 100⟩]
      { window := 21, parent := 22, cmap := 3, x := 475, y := 0,
        width := 50, height := 50, border := 2, old_border := 1,
        win_gravity := 1, win_gravity_hint := 1,
        min_width := 0, min_height := 0, max_width := 0, max_height := 0,
        base_width := 0, base_height := 0, width_inc := 1, height_inc := 1,
        vdesk := 0, ignore_unmap := 0, remove := true, is_dock := false }
      (by decide)).2 (by decide)

/-- C9: containment is half-open on both axes — a centre point on a
monitor's left or top edge is inside, one on its right or bottom edge is
outside; hence a client centred exactly on the shared boundary of two
adjacent monitors is assigned to the monitor that begins at that
coordinate. -/
theorem client_monitor_halfopen_boundary (c : Client) (m m1 m2 : Monitor) :
    (c.x + c.width / 2 = m.x → 0 < m.width →
     m.y ≤ c.y + c.height / 2 → c.y + c.height / 2 < m.y + m.height →
      monitor_contains (c.x + c.width / 2) (c.y + c.height / 2) m = true) ∧
    (c.y + c.height / 2 = m.y → 0 < m.height →
     m.x ≤ c.x + c.width / 2 → c.x + c.width / 2 < m.x + m.width →
      monitor_contains (c.x + c.width / 2) (c.y + c.height / 2) m = true) ∧
    (c.x + c.width / 2 = m.x + m.width →
      monitor_contains (c.x + c.width / 2) (c.y + c.height / 2) m = false) ∧
    (c.y + c.height / 2 = m.y + m.height →
      monitor_contains (c.x + c.width / 2) (c.y + c.height / 2) m = false) ∧
    (m2.x = m1.x + m1.width → c.x + c.width / 2 = m2.x → 0 < m2.width →
     m2.y ≤ c.y + c.height / 2 → c.y + c.height / 2 < m2.y + m2.height →
      client_monitor [m1, m2] c = m2) := by
  refine ⟨?_, ?_, ?_, ?_, ?_⟩
  · intro h1 h2 h3 h4
    simp only [monitor_contains, Bool.and_eq_true, decide_eq_true_eq]
    omega
  · intro h1 h2 h3 h4
    simp only [monitor_contains, Bool.and_eq_true, decide_eq_true_eq]
    omega
  · intro h1
    simp only [monitor_contains, Bool.and_eq_false_iff, decide_eq_false_iff_not]
    omega
  · intro h1
    simp only [monitor_contains, Bool.and_eq_false_iff, decide_eq_false_iff_not]
    omega
  · intro hadj hx hw hy1 hy2
    have hm1 : monitor_contains (c.x + c.width / 2) (c.y + c.height / 2) m1
        = false := by
      simp only [monitor_contains, Bool.and_eq_false_iff, decide_eq_false_iff_not]
      omega
    have hm2 : monitor_contains (c.x + c.width / 2) (c.y + c.height / 2) m2
        = true := by
      simp only [monitor_contains, Bool.and_eq_true, decide_eq_true_eq]
      omega
    simp [client_monitor, monitor_scan, hm1, hm2]

/-- Witness for C9: two adjacent 100-wide monitors and a client centred
exactly on their shared boundary x = 100. -/
theorem client_monitor_halfopen_boundary_witness :
    monitor_contains 100 25 ⟨0, 0, 100, 100⟩ = false ∧
    monitor_contains 100 25 ⟨100, 0, 100, 100⟩ = true ∧
    client_monitor [⟨0, 0, 100, 100⟩, ⟨100, 0, 100, 100⟩]
      { window := 21, parent := 22, cmap := 3, x := 75, y := 0,
        width := 50, height := 50, border := 2, old_border := 1,
        win_gravity := 1, win_gravity_hint := 1,
        min_width := 0, min_height := 0, max_width := 0, max_height := 0,
        base_width := 0, base_height := 0, width_inc := 1, height_inc := 1,
        vdesk := 0, ignore_unmap := 0, remove := true, is_dock := false } =
      ⟨100, 0, 100, 100⟩ := by
  have h := client_monitor_halfopen_boundary
    { window := 21, parent := 22, cmap := 3, x := 75, y := 0,
      width := 50, height := 50, border := 2, old_border := 1,
      win_gravity := 1, win_gravity_hint := 1,
      min_width := 0, min_height := 0, max_width := 0, max_height := 0,
      base_width := 0, base_height := 0, width_inc := 1, height_inc := 1,
      vdesk := 0, ignore_unmap := 0, remove := true, is_dock := false }
    ⟨0, 0, 100, 100⟩ ⟨0, 0, 100, 100⟩ ⟨100, 0, 100, 100⟩
  exact ⟨h.2.2.1 (by decide),
    (client_monitor_halfopen_boundary
      { window := 21, parent := 22, cmap := 3, x := 75, y := 0,
        width := 50, height := 50, border := 2, old_border := 1,
        win_gravity := 1, win_gravity_hint := 1,
        min_width := 0, min_height := 0, max_width := 0, max_height := 0,
        base_width := 0, base_height := 0, width_inc := 1, height_inc := 1,
        vdesk := 0, ignore_unmap := 0, remove := true, is_dock := false }
      ⟨100, 0, 100, 100⟩ ⟨0, 0, 100, 100⟩ ⟨100, 0, 100, 100⟩).1
      (by decide) (by decide) (by decide) (by decide),
    h.2.2.2.2 (by decide) (by decide) (by decide) (by decide) (by decide)⟩

/-- C5: `client_to_vdesk` is a silent no-op on an invalid desktop id
(no state mutated, no request issued); on a valid id it sets the client's
vdesk field, shows the client when the new vdesk is the screen's current
one or the fixed sentinel and hides it otherwise, publishes the
desktop-assignment property, and re-invokes selection on the currently
selected client. -/
theorem client_to_vdesk_contract (numVdesks scrVdesk : Nat) (cur : Option Nat)
    (c : Client) (v : Nat) :
    (valid_vdesk numVdesks v = false →
      client_to_vdesk numVdesks scrVdesk cur c v = (c, [])) ∧
    (valid_vdesk numVdesks v = true →
      client_to_vdesk numVdesks scrVdesk cur c v =
        (if v = scrVdesk ∨ v = VDESK_FIXED then
          ({ c with vdesk := v },
           [.xMapWindow c.parent, .xChangeProperty c.window NormalState,
            .ewmhSetNetWmDesktop c.window, .selectClient cur])
         else
          ({ c with vdesk := v, ignore_unmap := c.ignore_unmap + 1 },
           [.xUnmapWindow c.parent, .xChangeProperty c.window IconicState,
            .ewmhSetNetWmDesktop c.window, .selectClient cur]))) := by
  constructor
  · intro hbad
    simp [client_to_vdesk, hbad]
  · intro hok
    by_cases hvis : v = scrVdesk ∨ v = VDESK_FIXED
    · simp [client_to_vdesk, hok, hvis, client_show, set_wm_state]
    · simp [client_to_vdesk, hok, hvis, client_hide, set_wm_state]

/-- Witness for C5: with 8 desktops and the screen on desktop 2, moving to
desktop 9 is rejected without effect, and moving to desktop 3 hides the
client. -/
theorem client_to_vdesk_contract_witness :
    client_to_vdesk 8 2 (some 5)
      { window := 21, parent := 22, cmap := 3, x := 10, y := 10,
        width := 50, height := 50, border := 2, old_border := 1,
        win_gravity := 1, win_gravity_hint := 1,
        min_width := 0, min_height := 0, max_width := 0, max_height := 0,
        base_width := 0, base_height := 0, width_inc := 1, height_inc := 1,
        vdesk := 2, ignore_unmap := 0, remove := true, is_dock := false } 9 =
      ({ window := 21, parent := 22, cmap := 3, x := 10, y := 10,
         width := 50, height := 50, border := 2, old_border := 1,
         win_gravity := 1, win_gravity_hint := 1,
         min_width := 0, min_height := 0, max_width := 0, max_height := 0,
         base_width := 0, base_height := 0, width_inc := 1, height_inc := 1,
         vdesk := 2, ignore_unmap := 0, remove := true, is_dock := false },
       []) ∧
    client_to_vdesk 8 2 (some 5)
      { window := 21, parent := 22, cmap := 3, x := 10, y := 10,
        width := 50, height := 50, border := 2, old_border := 1,
        win_gravity := 1, win_gravity_hint := 1,
        min_width := 0, min_height := 0, max_width := 0, max_height := 0,
        base_width := 0, base_height := 0, width_inc := 1, height_inc := 1,
        vdesk := 2, ignore_unmap := 0, remove := true, is_dock := false } 3 =
      ({ window := 21, parent := 22, cmap := 3, x := 10, y := 10,
         width := 50, height := 50, border := 2, old_border := 1,
         win_gravity := 1, win_gravity_hint := 1,
         min_width := 0, min_height := 0, max_width := 0, max_height := 0,
         base_width := 0, base_height := 0, width_inc := 1, height_inc := 1,
         vdesk := 3, ignore_unmap := 1, remove := true, is_dock := false },
       [.xUnmapWindow 22, .xChangeProperty 21 IconicState,
        .ewmhSetNetWmDesktop 21, .selectClient (some 5)]) := by
  constructor
  · exact (client_to_vdesk_contract 8 2 (some 5)
      { window := 21, parent := 22, cmap := 3, x := 10, y := 10,
        width := 50, height := 50, border := 2, old_border := 1,
        win_gravity := 1, win_gravity_hint := 1,
        min_width := 0, min_height := 0, max_width := 0, max_height := 0,
        base_width := 0, base_height := 0, width_inc := 1, height_inc := 1,
        vdesk := 2, ignore_unmap := 0, remove := true, is_dock := false }
      9).1 (by decide)
  · have h := (client_to_vdesk_contract 8 2 (some 5)
      { window := 21, parent := 22, cmap := 3, x := 10, y := 10,
        width := 50, height := 50, border := 2, old_border := 1,
        win_gravity := 1, win_gravity_hint := 1,
        min_width := 0, min_height := 0, max_width := 0, max_height := 0,
        base_width := 0, base_height := 0, width_inc := 1, height_inc := 1,
        vdesk := 2, ignore_unmap := 0, remove := true, is_dock := false }
      3).2 (by decide)
    rw [if_neg (by decide)] at h
    exact h

/-! ## Concrete removal fixtures -/

/-- The end-to-end scenario client of §8 of the spec: border 2, original
border 1, south-east gravity, geometry (10,10,50,50), being withdrawn. -/
def cRem0 : Client :=
  { window := 21, parent := 22, cmap := 3, x := 10, y := 10,
    width := 50, height := 50, border := 2, old_border := 1,
    win_gravity := SouthEastGravity, win_gravity_hint := SouthEastGravity,
    min_width := 0, min_height := 0, max_width := 0, max_height := 0,
    base_width := 0, base_height := 0, width_inc := 1, height_inc := 1,
    vdesk := 0, ignore_unmap := 0, remove := true, is_dock := false }

/-- A registry holding `cRem0` (window 21) and one other client. -/
def st0 : WMState :=
  { clients_tab_order := [21, 31], clients_mapping_order := [21, 31],
    clients_stacking_order := [31, 21], current := some 21,
    ignore_xerror := false }

/-- The request trace of `remove_client` on the concrete fixture, for a
1024x768 display with root window 7. -/
def removeTrace0 : List XCall :=
  (remove_client 1024 768 7 st0 cRem0).2

/-- C1: for a client removed by `remove_client`, step 3 updates the stored
coordinates by `gravitate(c, −border)`, then `gravitate(c, old_border)`,
then subtracting `old_border` from x and y; for the spec's south-east
fixture (border 2, original border 1, geometry (10,10,50,50), not
maximized on either axis) the net south-east offset is
border − 2·old_border = 0 on each axis, so the window is reparented at
(10, 10) with width and height (50, 50) unchanged. -/
theorem remove_client_restores_se_geometry (dw dh : Int) (root : Nat)
    (st : WMState) (c : Client)
    (hg : c.win_gravity = SouthEastGravity)
    (hb : c.border = 2) (hob : c.old_border = 1)
    (hx : c.x = 10) (hy : c.y = 10) (hw : c.width = 50) (hh : c.height = 50)
    (hmw : c.width ≠ dw) (hmh : c.height ≠ dh) :
    remove_client_geometry dw dh c =
      (let c1 := client_gravitate dw dh c (-c.border)
       let c2 := client_gravitate dw dh c1 c.old_border
       { c2 with x := c2.x - c.old_border, y := c2.y - c.old_border }) ∧
    (remove_client_geometry dw dh c).x = 10 ∧
    (remove_client_geometry dw dh c).y = 10 ∧
    (remove_client_geometry dw dh c).width = 50 ∧
    (remove_client_geometry dw dh c).height = 50 ∧
    XCall.xReparentWindow c.window root 10 10 ∈
      (remove_client dw dh root st c).2 := by
  have hofs1 : gravity_offset SouthEastGravity (-(2 : Int)) = (2, 2) := by
    decide
  have hofs2 : gravity_offset SouthEastGravity (1 : Int) = (-1, -1) := by
    decide
  have hf1 := client_gravitate_fields dw dh c (-c.border)
  have hob1 : (client_gravitate dw dh c (-c.border)).old_border =
      c.old_border := hf1.2.2.2.2.2.1
  have hf2 := client_gravitate_fields dw dh
    (client_gravitate dw dh c (-c.border)) c.old_border
  have hob2 : (client_gravitate dw dh
      (client_gravitate dw dh c (-c.border)) c.old_border).old_border =
      c.old_border := hf2.2.2.2.2.2.1.trans hob1
  have hfin : remove_client_geometry dw dh c =
      { client_gravitate dw dh (client_gravitate dw dh c (-c.border))
          c.old_border with
        x := (client_gravitate dw dh (client_gravitate dw dh c (-c.border))
          c.old_border).x - c.old_border,
        y := (client_gravitate dw dh (client_gravitate dw dh c (-c.border))
          c.old_border).y - c.old_border } := by
    simp only [remove_client_geometry, hob1, hob2]
  have hx1 : (client_gravitate dw dh c (-c.border)).x = 12 := by
    rw [client_gravitate_x, if_pos (Or.inr hmw), hx, hg, hb, hofs1]
    decide
  have hy1 : (client_gravitate dw dh c (-c.border)).y = 12 := by
    rw [client_gravitate_y, if_pos (Or.inr hmh), hy, hg, hb, hofs1]
    decide
  have hx2 : (client_gravitate dw dh (client_gravitate dw dh c (-c.border))
      c.old_border).x = 11 := by
    rw [client_gravitate_x, if_pos (Or.inr (hf1.1 ▸ hmw)), hx1,
      hf1.2.2.2.2.2.2, hg, hob, hofs2]
    decide
  have hy2 : (client_gravitate dw dh (client_gravitate dw dh c (-c.border))
      c.old_border).y = 11 := by
    rw [client_gravitate_y, if_pos (Or.inr (hf1.2.1 ▸ hmh)), hy1,
      hf1.2.2.2.2.2.2, hg, hob, hofs2]
    decide
  have hgx : (remove_client_geometry dw dh c).x = 10 := by
    rw [hfin]
    show (client_gravitate dw dh (client_gravitate dw dh c (-c.border))
      c.old_border).x - c.old_border = 10
    rw [hx2, hob]
    rfl
  have hgy : (remove_client_geometry dw dh c).y = 10 := by
    rw [hfin]
    show (client_gravitate dw dh (client_gravitate dw dh c (-c.border))
      c.old_border).y - c.old_border = 10
    rw [hy2, hob]
    rfl
  have hgw : (remove_client_geometry dw dh c).width = 50 := by
    rw [hfin]
    show (client_gravitate dw dh (client_gravitate dw dh c (-c.border))
      c.old_border).width = 50
    rw [hf2.1, hf1.1, hw]
  have hgh : (remove_client_geometry dw dh c).height = 50 := by
    rw [hfin]
    show (client_gravitate dw dh (client_gravitate dw dh c (-c.border))
      c.old_border).height = 50
    rw [hf2.2.1, hf1.2.1, hh]
  have hgwin : (remove_client_geometry dw dh c).window = c.window := by
    rw [hfin]
    show (client_gravitate dw dh (client_gravitate dw dh c (-c.border))
      c.old_border).window = c.window
    rw [hf2.2.2.1, hf1.2.2.1]
  refine ⟨?_, hgx, hgy, hgw, hgh, ?_⟩
  · rw [hfin]
  · simp only [remove_client, List.mem_append, hgx, hgy, hgwin]
    simp [List.mem_cons]

/-- Witness for C1 on the concrete fixture. -/
theorem remove_client_restores_se_geometry_witness :
    (remove_client_geometry 1024 768 cRem0).x = 10 ∧
    (remove_client_geometry 1024 768 cRem0).y = 10 ∧
    (remove_client_geometry 1024 768 cRem0).width = 50 ∧
    (remove_client_geometry 1024 768 cRem0).height = 50 ∧
    XCall.xReparentWindow cRem0.window 7 10 10 ∈ removeTrace0 :=
  let h := remove_client_restores_se_geometry 1024 768 7 st0 cRem0
    rfl rfl rfl rfl rfl rfl rfl (by decide) (by decide)
  ⟨h.2.1, h.2.2.1, h.2.2.2.1, h.2.2.2.2.1, h.2.2.2.2.2⟩

/-- The ordering C8 asserts about the end of the Removal Transaction: the
re-enable of protocol-error propagation occurs, the synchronous flush
occurs, and the re-enable comes first. -/
def reenable_before_flush (tr : List XCall) : Bool :=
  tr.contains (XCall.setIgnoreXError false) && tr.contains XCall.xSync &&
    decide (tr.findIdx (· == XCall.setIgnoreXError false) <
      tr.findIdx (· == XCall.xSync))

/-- Counterexample to C8 as stated: in the concrete removal trace, both
the synchronous flush and the re-enabling of error propagation occur, but
the flush comes first — the error-suppression flag is still set while the
flush drains the queue. -/
theorem remove_client_reenable_order_counterexample :
    removeTrace0.contains (XCall.setIgnoreXError false) = true ∧
    removeTrace0.contains XCall.xSync = true ∧
    reenable_before_flush removeTrace0 = false ∧
    removeTrace0.findIdx (· == XCall.xSync) <
      removeTrace0.findIdx (· == XCall.setIgnoreXError false) := by
  decide

/-- C8 (amended): every execution of the Removal Transaction ends by
ungrabbing the server, then forcing the synchronous flush, and only then
re-enabling propagation of protocol-level errors, so suppressed errors
are drained (and discarded) before remove returns with suppression off. -/
theorem remove_client_flush_before_reenable (dw dh : Int) (root : Nat)
    (st : WMState) (c : Client) :
    ∃ pre, (remove_client dw dh root st c).2 =
        pre ++ [XCall.xUngrabServer, XCall.xSync,
          XCall.setIgnoreXError false] ∧
      (remove_client dw dh root st c).1.ignore_xerror = false :=
  ⟨_, rfl, rfl⟩

/-! ## Selection invariant -/

/-- The published focused flags point at most at the current Selection. -/
def sel_inv (w : SelWorld) : Prop :=
  ∀ i, w.focused i = true → ∃ cl, w.current = some cl ∧ cl.window = i

theorem select_client_current (scr : ScreenColors) (w : SelWorld)
    (c : Option Client) : (select_client scr w c).current = c := by
  rcases w with ⟨cur, bc, fo, cs⟩
  rcases cur with _ | oldc <;> rcases c with _ | cl <;>
    simp [select_client, ewmh_set_net_wm_state]

theorem select_client_preserves_sel_inv (scr : ScreenColors) (w : SelWorld)
    (c : Option Client) (h : sel_inv w) : sel_inv (select_client scr w c) := by
  rcases w with ⟨cur, bc, fo, cs⟩
  rcases cur with _ | oldc
  · rcases c with _ | cl
    · intro i hi
      simp only [select_client] at hi
      obtain ⟨cl', hc', -⟩ := h i hi
      simp at hc'
    · intro i hi
      simp only [select_client, ewmh_set_net_wm_state, updFn] at hi ⊢
      by_cases hic : i = cl.window
      · exact ⟨cl, rfl, hic.symm⟩
      · rw [if_neg hic] at hi
        obtain ⟨cl', hc', -⟩ := h i hi
        simp at hc'
  · rcases c with _ | cl
    · intro i hi
      simp only [select_client, ewmh_set_net_wm_state, updFn] at hi ⊢
      by_cases hio : i = oldc.window
      · rw [if_pos hio] at hi
        simp at hi
      · rw [if_neg hio] at hi
        obtain ⟨cl', hc', hw'⟩ := h i hi
        have hco : cl' = oldc := by
          have hc2 : (some oldc : Option Client) = some cl' := hc'
          exact (Option.some.inj hc2).symm
        exact absurd (hco ▸ hw').symm hio
    · intro i hi
      simp only [select_client, ewmh_set_net_wm_state, updFn] at hi ⊢
      by_cases hic : i = cl.window
      · exact ⟨cl, rfl, hic.symm⟩
      · rw [if_neg hic] at hi
        by_cases hio : i = oldc.window
        · rw [if_pos hio] at hi
          have hcw : cl.window = oldc.window := by simpa using hi
          exact absurd (hio.trans hcw.symm) hic
        · rw [if_neg hio] at hi
          obtain ⟨cl', hc', hw'⟩ := h i hi
          have hco : cl' = oldc := by
            have hc2 : (some oldc : Option Client) = some cl' := hc'
            exact (Option.some.inj hc2).symm
          exact absurd (hco ▸ hw').symm hio

/-- One `select_client` step from a world whose selection is A: border
colours, focused flags, call trace and new selection, all explicitly. -/
theorem select_client_step (scr : ScreenColors) (w : SelWorld) (A B : Client)
    (hcur : w.current = some A) :
    (select_client scr w (some B)).borderColor =
      updFn (updFn w.borderColor A.parent scr.bg) B.parent
        (if is_fixed B then scr.fc else scr.fg) ∧
    (select_client scr w (some B)).focused =
      updFn (updFn w.focused A.window (B.window == A.window)) B.window
        (B.window == B.window) ∧
    (select_client scr w (some B)).calls =
      w.calls ++
        [XCall.xSetWindowBorder A.parent scr.bg,
         XCall.xSetWindowBorder B.parent
           (if is_fixed B then scr.fc else scr.fg),
         XCall.xInstallColormap B.cmap,
         XCall.xSetInputFocus B.window,
         XCall.ewmhSetNetWmState A.window,
         XCall.ewmhSetNetWmState B.window] ∧
    (select_client scr w (some B)).current = some B := by
  rcases w with ⟨cur, bc, fo, cs⟩
  simp only [SelWorld.mk.injEq] at hcur
  rw [show cur = some A from hcur]
  simp [select_client, ewmh_set_net_wm_state]

/-- C7: after any sequence of `select_client` calls at most one client is
selected (has its focused flag published) process-wide; and after
select(A) then select(B) with A ≠ B, A's frame border holds the inactive
(bg) colour, B's holds the fixed colour if B is fixed and the active
colour otherwise, exactly the flag of B is set, and the state flags of the
old then the new selection are republished in that order — also when the
two are the same client. -/
theorem select_client_exclusive (scr : ScreenColors) (w0 : SelWorld)
    (hinv : sel_inv w0) :
    (∀ cs : List (Option Client), ∀ i j,
      (cs.foldl (select_client scr) w0).focused i = true →
      (cs.foldl (select_client scr) w0).focused j = true → i = j) ∧
    (∀ A B : Client, A.window ≠ B.window → A.parent ≠ B.parent →
      (select_client scr (select_client scr w0 (some A)) (some B)).borderColor
          A.parent = scr.bg ∧
      (select_client scr (select_client scr w0 (some A)) (some B)).borderColor
          B.parent = (if is_fixed B then scr.fc else scr.fg) ∧
      (select_client scr (select_client scr w0 (some A)) (some B)).focused
          B.window = true ∧
      (∀ i, (select_client scr (select_client scr w0 (some A))
          (some B)).focused i = true → i = B.window) ∧
      (∃ pre, (select_client scr (select_client scr w0 (some A))
          (some B)).calls =
        pre ++ [XCall.ewmhSetNetWmState A.window,
                XCall.ewmhSetNetWmState B.window])) ∧
    (∀ A : Client, ∃ pre,
      (select_client scr (select_client scr w0 (some A)) (some A)).calls =
        pre ++ [XCall.ewmhSetNetWmState A.window,
                XCall.ewmhSetNetWmState A.window]) := by
  have hfold : ∀ (cs : List (Option Client)) (w : SelWorld), sel_inv w →
      sel_inv (cs.foldl (select_client scr) w) := by
    intro cs
    induction cs with
    | nil => exact fun w hw => hw
    | cons c cs ih =>
        exact fun w hw => ih _ (select_client_preserves_sel_inv scr w c hw)
  refine ⟨?_, ?_, ?_⟩
  · intro cs i j hi hj
    obtain ⟨ci, hci, hwi⟩ := hfold cs w0 hinv i hi
    obtain ⟨cj, hcj, hwj⟩ := hfold cs w0 hinv j hj
    rw [hci] at hcj
    rw [← hwi, ← hwj, Option.some.inj hcj]
  · intro A B hwAB hpAB
    have hw1cur : (select_client scr w0 (some A)).current = some A :=
      select_client_current scr w0 (some A)
    have step := select_client_step scr (select_client scr w0 (some A)) A B
      hw1cur
    have hinv1 : sel_inv (select_client scr w0 (some A)) :=
      select_client_preserves_sel_inv scr w0 (some A) hinv
    refine ⟨?_, ?_, ?_, ?_, ?_⟩
    · rw [step.1]
      unfold updFn
      rw [if_neg hpAB, if_pos rfl]
    · rw [step.1]
      unfold updFn
      rw [if_pos rfl]
    · rw [step.2.1]
      unfold updFn
      rw [if_pos rfl]
      simp
    · intro i hi
      rw [step.2.1] at hi
      unfold updFn at hi
      by_cases hiB : i = B.window
      · exact hiB
      · rw [if_neg hiB] at hi
        by_cases hiA : i = A.window
        · rw [if_pos hiA] at hi
          have : B.window = A.window := by simpa using hi
          exact absurd this.symm hwAB
        · rw [if_neg hiA] at hi
          obtain ⟨cl', hc', hw'⟩ := hinv1 i hi
          rw [hw1cur] at hc'
          have : cl' = A := (Option.some.inj hc').symm
          exact absurd (this ▸ hw').symm hiA
    · refine ⟨(select_client scr w0 (some A)).calls ++
        [XCall.xSetWindowBorder A.parent scr.bg,
         XCall.xSetWindowBorder B.parent
           (if is_fixed B then scr.fc else scr.fg),
         XCall.xInstallColormap B.cmap, XCall.xSetInputFocus B.window], ?_⟩
      rw [step.2.2.1]
      simp
  · intro A
    have hw1cur : (select_client scr w0 (some A)).current = some A :=
      select_client_current scr w0 (some A)
    have step := select_client_step scr (select_client scr w0 (some A)) A A
      hw1cur
    refine ⟨(select_client scr w0 (some A)).calls ++
      [XCall.xSetWindowBorder A.parent scr.bg,
       XCall.xSetWindowBorder A.parent
         (if is_fixed A then scr.fc else scr.fg),
       XCall.xInstallColormap A.cmap, XCall.xSetInputFocus A.window], ?_⟩
    rw [step.2.2.1]
    simp

/-- A fresh selection world: nothing selected, nothing focused. -/
def selW0 : SelWorld :=
  { current := none, borderColor := fun _ => 0, focused := fun _ => false,
    calls := [] }

def scr0 : ScreenColors := { bg := 5, fg := 6, fc := 7 }

def selA : Client :=
  { window := 1, parent := 11, cmap := 3, x := 0, y := 0,
    width := 50, height := 50, border := 1, old_border := 1,
    win_gravity := 1, win_gravity_hint := 1,
    min_width := 0, min_height := 0, max_width := 0, max_height := 0,
    base_width := 0, base_height := 0, width_inc := 1, height_inc := 1,
    vdesk := 0, ignore_unmap := 0, remove := true, is_dock := false }

def selB : Client :=
  { window := 2, parent := 12, cmap := 4, x := 0, y := 0,
    width := 50, height := 50, border := 1, old_border := 1,
    win_gravity := 1, win_gravity_hint := 1,
    vdesk := 0, min_width := 0, min_height := 0, max_width := 0,
    max_height := 0, base_width := 0, base_height := 0, width_inc := 1,
    height_inc := 1, ignore_unmap := 0, remove := true, is_dock := false }

/-- Witness for C7 on concrete clients A (window 1) and B (window 2). -/
theorem select_client_exclusive_witness :
    (select_client scr0 (select_client scr0 selW0 (some selA))
      (some selB)).borderColor selA.parent = scr0.bg ∧
    (select_client scr0 (select_client scr0 selW0 (some selA))
      (some selB)).focused selB.window = true := by
  have h := (select_client_exclusive scr0 selW0
    (by intro i hi; simp [selW0] at hi)).2.1 selA selB
    (by decide) (by decide)
  exact ⟨h.1, h.2.2.1⟩

end Evilwm
